import Mathlib

/-!
# GCOPTER global planning node: orchestration layer

A shallow embedding of `gcopter/src/global_planning.cpp`: the `GlobalPlanner`
class with its four member functions `mapCallBack`, `plan`, `targetCallBack`
and `process`, written as pure functions on an explicit planner state.

* C++ `double` values are the four IEEE-754 classes of `Dbl`; comparisons and
  classification (`isinf`, `isnan`, `fabs`) are defined exactly, arithmetic
  that rounds is supplied by the environment record `Ext`.
* The numerical engines the node calls (voxel map, path search, corridor
  construction, trajectory optimizer, flatness map) live in headers outside
  this translation unit; they are fields of `Ext`, and every theorem holds for
  every such record.
* Every call of a planning stage, of the visualizer, of a publisher and of the
  warning log appends one `Call` to a trace, so that "stage X is not invoked"
  is a statement about that trace. Read-only getters (`getOrigin`,
  `getCorner`, `getScale`, `query`, the trajectory samplers) are not traced.
-/

namespace GCopter

/-! ## Doubles -/

/-- Value classes of an IEEE-754 double: not-a-number, the two infinities and
the finite values (a finite double is a rational number; the two signed zeros
compare equal and are both `fin 0`). -/
inductive Dbl where
  | nan : Dbl
  | ninf : Dbl
  | fin (q : ℚ) : Dbl
  | pinf : Dbl
deriving DecidableEq

namespace Dbl

instance : Inhabited Dbl := ⟨Dbl.nan⟩

/-- The C++ `std::isnan`. -/
def isnan : Dbl → Bool
  | nan => true
  | _ => false

/-- The C++ `std::isinf`: true on both infinities, false on NaN. -/
def isinf : Dbl → Bool
  | ninf => true
  | pinf => true
  | _ => false

/-- The C++ `fabs`. -/
def fabs : Dbl → Dbl
  | nan => nan
  | ninf => pinf
  | fin q => fin |q|
  | pinf => pinf

/-- The C++ `a < b` on doubles: false as soon as one side is NaN. -/
def lt : Dbl → Dbl → Bool
  | nan, _ => false
  | _, nan => false
  | ninf, ninf => false
  | ninf, _ => true
  | fin _, ninf => false
  | fin a, fin b => decide (a < b)
  | fin _, pinf => true
  | pinf, _ => false

/-- The C++ `a <= b` on doubles: false as soon as one side is NaN. -/
def le : Dbl → Dbl → Bool
  | nan, _ => false
  | _, nan => false
  | ninf, _ => true
  | fin _, ninf => false
  | fin a, fin b => decide (a ≤ b)
  | fin _, pinf => true
  | pinf, pinf => true
  | pinf, _ => false

/-- The C++ `a > b`. -/
def gt (a b : Dbl) : Bool := lt b a

/-- The C++ `a >= b`. -/
def ge (a b : Dbl) : Bool := le b a

/-- The literal `0.0`. -/
def zero : Dbl := fin 0

end Dbl

/-! ## Plain data -/

/-- The type `Eigen::Vector3d`. -/
structure Vec3 where
  x : Dbl
  y : Dbl
  z : Dbl
deriving DecidableEq

instance : Inhabited Vec3 := ⟨⟨default, default, default⟩⟩

/-- The value `Eigen::Vector3d::Zero()`. -/
def Vec3.Zero : Vec3 := ⟨Dbl.zero, Dbl.zero, Dbl.zero⟩

/-- The type `Eigen::Vector4d` (a quaternion `w x y z`, indices 0 to 3). -/
structure Vec4 where
  q0 : Dbl
  q1 : Dbl
  q2 : Dbl
  q3 : Dbl
deriving DecidableEq

/-- One row `(a, b, c, d)` of an `Eigen::MatrixX4d`: the half-space
`a x + b y + c z + d <= 0`. -/
structure Row4 where
  a : Dbl
  b : Dbl
  c : Dbl
  d : Dbl
deriving DecidableEq

/-- The type `Eigen::MatrixX4d`: one convex polyhedron of the corridor. -/
abbrev HPoly := List Row4

/-- The type `Eigen::Matrix3d` as filled by `m << a, b, c` from three
3-vectors. -/
structure Mat3 where
  c0 : Vec3
  c1 : Vec3
  c2 : Vec3
deriving DecidableEq

/-- The struct `Config`, field for field. -/
structure Config where
  mapTopic : String
  targetTopic : String
  dilateRadius : Dbl
  voxelWidth : Dbl
  mapBound : List Dbl
  timeoutRRT : Dbl
  maxVelMag : Dbl
  maxBdrMag : Dbl
  maxTiltAngle : Dbl
  minThrust : Dbl
  maxThrust : Dbl
  vehicleMass : Dbl
  gravAcc : Dbl
  horizDrag : Dbl
  vertDrag : Dbl
  parasDrag : Dbl
  speedEps : Dbl
  weightT : Dbl
  chiVec : List Dbl
  smoothingEps : Dbl
  integralIntervs : Int
  relCostTol : Dbl
deriving DecidableEq

/-- Read of `v[i]` on a `std::vector<double>`. Reading past the end is
undefined in C++; the embedding reads NaN there. -/
def vecAt (v : List Dbl) (i : Nat) : Dbl := v.getD i Dbl.nan

/-- Modelled from the spec: the class `Piece` of `gcopter/trajectory.hpp`,
which is not part of this translation unit: one polynomial segment with its
duration and its coefficient matrix (kept as the flat list of entries). -/
structure Piece where
  duration : Dbl
  coeffMat : List Dbl
deriving DecidableEq

/-- Modelled from the spec: the class `Trajectory<5>` of
`gcopter/trajectory.hpp`, "a piecewise polynomial curve": the container of its
segments. -/
abbrev Trajectory := List Piece

/-- Modelled from the spec: `Trajectory::clear()` of `gcopter/trajectory.hpp`:
it empties the container of segments. -/
def Trajectory.clear (_t : Trajectory) : Trajectory := []

/-- Modelled from the spec: `Trajectory::getPieceNum()` of
`gcopter/trajectory.hpp`: the number of segments held. -/
def Trajectory.getPieceNum (t : Trajectory) : Nat := t.length

/-- The message `sensor_msgs::PointCloud2` as `mapCallBack` reads it:
`data_size` is `msg->data.size()` in bytes, `point_step` the stride in bytes and
`fdata` the byte buffer seen through the cast `(float *)(&msg->data[0])`. -/
structure PointCloud2 where
  data_size : Nat
  point_step : Nat
  fdata : List Dbl

/-- The message `geometry_msgs::PoseStamped` as `targetCallBack` reads it. -/
structure PoseStamped where
  position_x : Dbl
  position_y : Dbl
  orientation_z : Dbl

/-- The ten arguments of `GCOPTER_PolytopeSFC::setup`, in call order. -/
structure SetupArgs where
  timeWeight : Dbl
  initialPVA : Mat3
  terminalPVA : Mat3
  safeCorridor : List HPoly
  lengthPerPiece : Dbl
  smoothingFactor : Dbl
  integralResolution : Int
  magnitudeBounds : List Dbl
  penaltyWeights : List Dbl
  physicalParams : List Dbl

/-- One call that leaves `GlobalPlanner`, with the arguments the source passes. -/
inductive Call where
  | planPath (s g lb hb : Vec3) (timeout : Dbl)
  | getSurf
  | convexCover (route pc : List Vec3) (lb hb : Vec3) (progress range : Dbl)
  | shortCut (hPolys : List HPoly)
  | visualizePolytope (hPolys : List HPoly)
  | setup (args : SetupArgs)
  | optimize (relCostTol : Dbl)
  | visualize (traj : Trajectory) (route : List Vec3)
  | visualizeStartGoal (center : Vec3) (radius : Dbl) (sg_id : Nat)
  | rosWarn
  | speedPub (data : Dbl)
  | thrPub (data : Dbl)
  | tiltPub (data : Dbl)
  | bdrPub (data : Dbl)
  | visualizeSphere (center : Vec3) (radius : Dbl)

/-- The calls of the planning stages proper: path search, corridor build and
simplification, optimizer setup and optimizer run. -/
def Call.isStage : Call → Bool
  | .planPath _ _ _ _ _ => true
  | .getSurf => true
  | .convexCover _ _ _ _ _ _ => true
  | .shortCut _ => true
  | .setup _ => true
  | .optimize _ => true
  | _ => false

/-- The call is the path search. -/
def Call.isPlanPath : Call → Bool
  | .planPath _ _ _ _ _ => true
  | _ => false

/-- The call is an optimizer call (`setup` or `optimize`). -/
def Call.isOptimizer : Call → Bool
  | .setup _ => true
  | .optimize _ => true
  | _ => false

/-- The call is an output of the command loop `process`. -/
def Call.isTelemetry : Call → Bool
  | .speedPub _ => true
  | .thrPub _ => true
  | .tiltPub _ => true
  | .bdrPub _ => true
  | .visualizeSphere _ _ => true
  | _ => false

/-- The timeout budget a path-search call was given (nothing for any other
call). -/
def Call.planPathTimeout : Call → Option Dbl
  | .planPath _ _ _ _ timeout => some timeout
  | _ => none

/-- The collaborators of the node that are defined in other headers, and the
rounding double arithmetic. `VM` is `voxel_map::VoxelMap`, `G` the state of a
`gcopter::GCOPTER_PolytopeSFC` object after `setup`. -/
structure Ext (VM G : Type) where
  fadd : Dbl → Dbl → Dbl
  fsub : Dbl → Dbl → Dbl
  fmul : Dbl → Dbl → Dbl
  fdiv : Dbl → Dbl → Dbl
  fceil : Dbl → Dbl
  facos : Dbl → Dbl
  toInt : Dbl → Int
  norm : Vec3 → Dbl
  mkVoxelMap : Int × Int × Int → Vec3 → Dbl → VM
  setOccupied : VM → Vec3 → VM
  dilate : VM → Int → VM
  getScale : VM → Dbl
  getOrigin : VM → Vec3
  getCorner : VM → Vec3
  getSurf : VM → List Vec3
  query : VM → Vec3 → Nat
  planPath : Vec3 → Vec3 → Vec3 → Vec3 → VM → Dbl → List Vec3
  convexCover : List Vec3 → List Vec3 → Vec3 → Vec3 → Dbl → Dbl → List HPoly
  shortCut : List HPoly → List HPoly
  setup : SetupArgs → Bool × G
  optimize : G → Trajectory → Dbl → Dbl × Trajectory
  getPos : Trajectory → Dbl → Vec3
  getVel : Trajectory → Dbl → Vec3
  getAcc : Trajectory → Dbl → Vec3
  getJer : Trajectory → Dbl → Vec3
  forward : List Dbl → Vec3 → Vec3 → Vec3 → Dbl → Dbl → Dbl × Vec4 × Vec3

/-- Modelled from the spec: `Trajectory::getTotalDuration()` of
`gcopter/trajectory.hpp`, the "totalDuration" of the curve: the durations of
the segments added up from `0.0` in double arithmetic. -/
def Trajectory.getTotalDuration {VM G : Type} (E : Ext VM G) (t : Trajectory) : Dbl :=
  t.foldl (fun acc p => E.fadd acc p.duration) Dbl.zero

/-! ## The planner -/

/-- The data members of `class GlobalPlanner` that the member functions read
or write (the ROS handles and the stateless visualizer are left out; the
visualizer calls are in the trace). -/
structure GlobalPlanner (VM : Type) where
  config : Config
  mapInitialized : Bool
  voxelMap : VM
  startGoal : List Vec3
  traj : Trajectory
  trajStamp : Dbl

variable {VM G : Type}

/-- The constructor `GlobalPlanner::GlobalPlanner`. The member `trajStamp` has
no initializer in the source, so its first value `stamp0` is arbitrary. -/
def GlobalPlanner.init (E : Ext VM G) (conf : Config) (stamp0 : Dbl) : GlobalPlanner VM :=
  let xyz : Int × Int × Int :=
    (E.toInt (E.fdiv (E.fsub (vecAt conf.mapBound 1) (vecAt conf.mapBound 0)) conf.voxelWidth),
     E.toInt (E.fdiv (E.fsub (vecAt conf.mapBound 3) (vecAt conf.mapBound 2)) conf.voxelWidth),
     E.toInt (E.fdiv (E.fsub (vecAt conf.mapBound 5) (vecAt conf.mapBound 4)) conf.voxelWidth))
  let offset : Vec3 := ⟨vecAt conf.mapBound 0, vecAt conf.mapBound 2, vecAt conf.mapBound 4⟩
  { config := conf
    mapInitialized := false
    voxelMap := E.mkVoxelMap xyz offset conf.voxelWidth
    startGoal := []
    traj := []
    trajStamp := stamp0 }

/-- The body of the `for` loop of `mapCallBack` for index `i`: skip a point
with a NaN or infinite coordinate, else mark its voxel occupied. -/
def mapPoint (E : Ext VM G) (msg : PointCloud2) (vm : VM) (i : Nat) : VM :=
  let cur := msg.point_step / 4 * i
  let f0 := vecAt msg.fdata (cur + 0)
  let f1 := vecAt msg.fdata (cur + 1)
  let f2 := vecAt msg.fdata (cur + 2)
  if f0.isnan || f0.isinf || f1.isnan || f1.isinf || f2.isnan || f2.isinf then
    vm
  else
    E.setOccupied vm ⟨f0, f1, f2⟩

/-- The member function `GlobalPlanner::mapCallBack`. The point count is
`msg->data.size() / msg->point_step` (a zero stride is undefined in C++; the
embedding counts no point then), the index of point `i` in the float view is
`point_step / sizeof(float) * i` with `sizeof(float) = 4`. -/
def mapCallBack (E : Ext VM G) (s : GlobalPlanner VM) (msg : PointCloud2) : GlobalPlanner VM :=
  if !s.mapInitialized then
    let total := msg.data_size / msg.point_step
    let vm1 := (List.range total).foldl (mapPoint E msg) s.voxelMap
    let vm2 := E.dilate vm1 (E.toInt (E.fceil (E.fdiv s.config.dilateRadius (E.getScale vm1))))
    { s with voxelMap := vm2, mapInitialized := true }
  else
    s

/-- The vector `magnitudeBounds` that `plan` fills from the configuration. -/
def magnitudeBoundsOf (c : Config) : List Dbl :=
  [c.maxVelMag, c.maxBdrMag, c.maxTiltAngle, c.minThrust, c.maxThrust]

/-- The vector `penaltyWeights` that `plan` fills from `config.chiVec`. -/
def penaltyWeightsOf (c : Config) : List Dbl :=
  [vecAt c.chiVec 0, vecAt c.chiVec 1, vecAt c.chiVec 2, vecAt c.chiVec 3, vecAt c.chiVec 4]

/-- The vector `physicalParams` that `plan` and `process` fill from the
configuration. -/
def physicalParamsOf (c : Config) : List Dbl :=
  [c.vehicleMass, c.gravAcc, c.horizDrag, c.vertDrag, c.parasDrag, c.speedEps]

/-- The argument list of the `gcopter.setup` call in `plan`, for the route
and corridor at hand. -/
def setupArgsOf (c : Config) (route : List Vec3) (hPolys : List HPoly) : SetupArgs :=
  { timeWeight := c.weightT
    initialPVA := ⟨route.headD default, Vec3.Zero, Vec3.Zero⟩
    terminalPVA := ⟨route.getLastD default, Vec3.Zero, Vec3.Zero⟩
    safeCorridor := hPolys
    lengthPerPiece := Dbl.pinf
    smoothingFactor := c.smoothingEps
    integralResolution := c.integralIntervs
    magnitudeBounds := magnitudeBoundsOf c
    penaltyWeights := penaltyWeightsOf c
    physicalParams := physicalParamsOf c }

/-- The member function `GlobalPlanner::plan`; `now` is the value
`ros::Time::now().toSec()` would return. The result is the planner state after
the call and the calls made, in order. -/
def plan (E : Ext VM G) (s : GlobalPlanner VM) (now : Dbl) : GlobalPlanner VM × List Call :=
  if s.startGoal.length = 2 then
    let lb := E.getOrigin s.voxelMap
    let hb := E.getCorner s.voxelMap
    let sg0 := s.startGoal.getD 0 default
    let sg1 := s.startGoal.getD 1 default
    let route := E.planPath sg0 sg1 lb hb s.voxelMap (Dbl.fin 1)
    let pc := E.getSurf s.voxelMap
    let hPolys0 := E.convexCover route pc lb hb (Dbl.fin 7) (Dbl.fin 3)
    let hPolys := E.shortCut hPolys0
    let tr0 : List Call :=
      [Call.planPath sg0 sg1 lb hb (Dbl.fin 1), Call.getSurf,
       Call.convexCover route pc lb hb (Dbl.fin 7) (Dbl.fin 3), Call.shortCut hPolys0]
    if route.length > 1 then
      let args := setupArgsOf s.config route hPolys
      let s1 := { s with traj := Trajectory.clear s.traj }
      let tr1 := tr0 ++ [Call.visualizePolytope hPolys, Call.setup args]
      let r := E.setup args
      if !r.1 then
        (s1, tr1)
      else
        let o := E.optimize r.2 s1.traj s.config.relCostTol
        let s2 := { s1 with traj := o.2 }
        let tr2 := tr1 ++ [Call.optimize s.config.relCostTol]
        if o.1.isinf then
          (s2, tr2)
        else if Trajectory.getPieceNum s2.traj > 0 then
          ({ s2 with trajStamp := now }, tr2 ++ [Call.visualize s2.traj route])
        else
          (s2, tr2)
    else
      (s, tr0)
  else
    (s, [])

/-- The altitude `zGoal` that `targetCallBack` derives from the pose. -/
def zGoalOf (E : Ext VM G) (c : Config) (msg : PoseStamped) : Dbl :=
  E.fadd (E.fadd (vecAt c.mapBound 4) c.dilateRadius)
    (E.fmul (Dbl.fabs msg.orientation_z)
      (E.fsub (E.fsub (vecAt c.mapBound 5) (vecAt c.mapBound 4))
        (E.fmul (Dbl.fin 2) c.dilateRadius)))

/-- The candidate point `goal` that `targetCallBack` builds from the pose. -/
def goalOf (E : Ext VM G) (c : Config) (msg : PoseStamped) : Vec3 :=
  ⟨msg.position_x, msg.position_y, zGoalOf E c msg⟩

/-- The member function `GlobalPlanner::targetCallBack`; `now` is the clock
value a nested `plan` would read. -/
def targetCallBack (E : Ext VM G) (s : GlobalPlanner VM) (msg : PoseStamped) (now : Dbl) :
    GlobalPlanner VM × List Call :=
  if s.mapInitialized then
    let s1 := if s.startGoal.length ≥ 2 then { s with startGoal := [] } else s
    let goal := goalOf E s1.config msg
    let a : GlobalPlanner VM × List Call :=
      if E.query s1.voxelMap goal = 0 then
        ({ s1 with startGoal := s1.startGoal ++ [goal] },
         [Call.visualizeStartGoal goal (Dbl.fin (1 / 2)) s1.startGoal.length])
      else
        (s1, [Call.rosWarn])
    let p := plan E a.1 now
    (p.1, a.2 ++ p.2)
  else
    (s, [])

/-- The member function `GlobalPlanner::process`; `now` is the value of
`ros::Time::now().toSec()`. The function writes no data member, so the result
is only the list of calls made. -/
def process (E : Ext VM G) (s : GlobalPlanner VM) (now : Dbl) : List Call :=
  let physicalParams := physicalParamsOf s.config
  if Trajectory.getPieceNum s.traj > 0 then
    let delta := E.fsub now s.trajStamp
    if Dbl.gt delta Dbl.zero && Dbl.lt delta (Trajectory.getTotalDuration E s.traj) then
      let f := E.forward physicalParams (E.getVel s.traj delta) (E.getAcc s.traj delta)
        (E.getJer s.traj delta) Dbl.zero Dbl.zero
      let thr := f.1
      let quat := f.2.1
      let omg := f.2.2
      let speed := E.norm (E.getVel s.traj delta)
      let bodyratemag := E.norm omg
      let tiltangle := E.facos (E.fsub (Dbl.fin 1)
        (E.fmul (Dbl.fin 2) (E.fadd (E.fmul quat.q1 quat.q1) (E.fmul quat.q2 quat.q2))))
      [Call.speedPub speed, Call.thrPub thr, Call.tiltPub tiltangle, Call.bdrPub bodyratemag,
       Call.visualizeSphere (E.getPos s.traj delta) s.config.dilateRadius]
    else
      []
  else
    []

/-! ## Driving the node -/

/-- One thing the ROS loop of `main` can deliver to the node: a point-cloud
frame, a goal request (with the clock value a nested `plan` reads), or one
pass of `process` (with the clock value it reads). -/
inductive Input where
  | frame (msg : PointCloud2)
  | target (msg : PoseStamped) (now : Dbl)
  | tick (now : Dbl)

/-- The effect of one input: the next state and the calls made. -/
def step (E : Ext VM G) (s : GlobalPlanner VM) : Input → GlobalPlanner VM × List Call
  | .frame msg => (mapCallBack E s msg, [])
  | .target msg now => targetCallBack E s msg now
  | .tick now => (s, process E s now)

/-- The effect of a sequence of inputs, delivered one after the other as the
single-threaded loop of `main` does. -/
def run (E : Ext VM G) (s : GlobalPlanner VM) : List Input → GlobalPlanner VM × List Call
  | [] => (s, [])
  | i :: is =>
    let r := step E s i
    let q := run E r.1 is
    (q.1, r.2 ++ q.2)

/-- The states the node can be in: the constructed state, and every state a
callback or `process` leads to from one. -/
inductive Reachable (E : Ext VM G) : GlobalPlanner VM → Prop where
  | init (conf : Config) (stamp0 : Dbl) : Reachable E (GlobalPlanner.init E conf stamp0)
  | step (s : GlobalPlanner VM) (i : Input) : Reachable E s → Reachable E (step E s i).1

/-- The same planner state with another value of `config.timeoutRRT`. -/
def GlobalPlanner.withTimeoutRRT (s : GlobalPlanner VM) (t : Dbl) : GlobalPlanner VM :=
  { s with config := { s.config with timeoutRRT := t } }

/-! ## What `plan` computes on its way -/

/-- The route the path search returns when `plan` runs in state `s`. -/
def planRoute (E : Ext VM G) (s : GlobalPlanner VM) : List Vec3 :=
  E.planPath (s.startGoal.getD 0 default) (s.startGoal.getD 1 default)
    (E.getOrigin s.voxelMap) (E.getCorner s.voxelMap) s.voxelMap (Dbl.fin 1)

/-- The simplified corridor `hPolys` that `plan` builds in state `s`. -/
def planCorridor (E : Ext VM G) (s : GlobalPlanner VM) : List HPoly :=
  E.shortCut (E.convexCover (planRoute E s) (E.getSurf s.voxelMap)
    (E.getOrigin s.voxelMap) (E.getCorner s.voxelMap) (Dbl.fin 7) (Dbl.fin 3))

/-- The answer of `gcopter.setup` when `plan` runs in state `s`. -/
def planSetup (E : Ext VM G) (s : GlobalPlanner VM) : Bool × G :=
  E.setup (setupArgsOf s.config (planRoute E s) (planCorridor E s))

/-- The answer of `gcopter.optimize` when `plan` runs in state `s`: the cost
and the trajectory written into `traj`. -/
def planOptimize (E : Ext VM G) (s : GlobalPlanner VM) : Dbl × Trajectory :=
  E.optimize (planSetup E s).2 (Trajectory.clear s.traj) s.config.relCostTol

/-- The part of `targetCallBack` that runs, with the map ready, before its
call of `plan`: drop a held pair, derive the candidate, append it when it is
reported free and log a warning when not. -/
def acceptGoal (E : Ext VM G) (s : GlobalPlanner VM) (msg : PoseStamped) :
    GlobalPlanner VM × List Call :=
  let s1 := if s.startGoal.length ≥ 2 then { s with startGoal := [] } else s
  let goal := goalOf E s1.config msg
  if E.query s1.voxelMap goal = 0 then
    ({ s1 with startGoal := s1.startGoal ++ [goal] },
     [Call.visualizeStartGoal goal (Dbl.fin (1 / 2)) s1.startGoal.length])
  else
    (s1, [Call.rosWarn])

/-! ## A small concrete environment

The voxel map is the list of points marked occupied (dilation keeps it as it
is), a point is reported occupied when it is in the list; the path search
answers with the two end points; the optimizer accepts a problem when
`minThrust < maxThrust` and returns one segment of duration `10`. Arithmetic
is exact on finite values. -/

/-- Exact binary operation on finite values, NaN otherwise. -/
def exactOp (f : ℚ → ℚ → ℚ) : Dbl → Dbl → Dbl
  | .fin a, .fin b => .fin (f a b)
  | _, _ => .nan

/-- The toy optimizer setup: accepted when `minThrust < maxThrust`. -/
def toySetup (a : SetupArgs) : Bool × Unit :=
  (Dbl.lt (vecAt a.magnitudeBounds 3) (vecAt a.magnitudeBounds 4), ())

/-- The concrete environment described above; `cost` is the value its
optimizer returns. -/
def toyExt (cost : Dbl) : Ext (List Vec3) Unit where
  fadd := exactOp (· + ·)
  fsub := exactOp (· - ·)
  fmul := exactOp (· * ·)
  fdiv := exactOp (· / ·)
  fceil := fun d => match d with
    | .fin q => .fin ⌈q⌉
    | d => d
  facos := fun _ => Dbl.zero
  toInt := fun d => match d with
    | .fin q => ⌊q⌋
    | _ => 0
  norm := fun v => Dbl.fabs v.x
  mkVoxelMap := fun _ _ _ => []
  setOccupied := fun vm p => p :: vm
  dilate := fun vm _ => vm
  getScale := fun _ => Dbl.fin 1
  getOrigin := fun _ => Vec3.Zero
  getCorner := fun _ => ⟨Dbl.fin 50, Dbl.fin 50, Dbl.fin 20⟩
  getSurf := fun vm => vm
  query := fun vm p => if p ∈ vm then 1 else 0
  planPath := fun s g _ _ _ _ => [s, g]
  convexCover := fun _ _ _ _ _ _ => [[]]
  shortCut := fun h => h
  setup := toySetup
  optimize := fun _ _ _ => (cost, [⟨Dbl.fin 10, []⟩])
  getPos := fun _ _ => Vec3.Zero
  getVel := fun _ _ => Vec3.Zero
  getAcc := fun _ _ => Vec3.Zero
  getJer := fun _ _ => Vec3.Zero
  forward := fun _ _ _ _ _ _ => (Dbl.zero, ⟨Dbl.fin 1, Dbl.zero, Dbl.zero, Dbl.zero⟩, Vec3.Zero)

/-- A configuration in the shape of the shipped one: a 50 x 50 x 20 box,
voxel width 1/2, dilation radius 1, thrust bounds `minThrust` and 12. -/
def toyConfig (minThrust : Dbl) : Config :=
  { mapTopic := "/voxel_map"
    targetTopic := "/goal"
    dilateRadius := Dbl.fin 1
    voxelWidth := Dbl.fin (1 / 2)
    mapBound := [Dbl.fin 0, Dbl.fin 50, Dbl.fin 0, Dbl.fin 50, Dbl.fin 0, Dbl.fin 20]
    timeoutRRT := Dbl.fin (1 / 50)
    maxVelMag := Dbl.fin 4
    maxBdrMag := Dbl.fin 2
    maxTiltAngle := Dbl.fin 1
    minThrust := minThrust
    maxThrust := Dbl.fin 12
    vehicleMass := Dbl.fin 1
    gravAcc := Dbl.fin 10
    horizDrag := Dbl.zero
    vertDrag := Dbl.zero
    parasDrag := Dbl.zero
    speedEps := Dbl.zero
    weightT := Dbl.fin 20
    chiVec := [Dbl.fin 1, Dbl.fin 1, Dbl.fin 1, Dbl.fin 1, Dbl.fin 1]
    smoothingEps := Dbl.fin (1 / 100)
    integralIntervs := 16
    relCostTol := Dbl.fin (1 / 100000) }

/-- The point `(x, y, z)` with finite coordinates. -/
def pt (x y z : ℚ) : Vec3 := ⟨Dbl.fin x, Dbl.fin y, Dbl.fin z⟩

/-- A one-segment trajectory of duration 5, standing for an earlier plan. -/
def oldTraj : Trajectory := [⟨Dbl.fin 5, []⟩]

/-- A planner state with the map ready, `occ` occupied, the goal sequence
`sg`, the trajectory `oldTraj` published at time 100. -/
def toyState (minThrust : Dbl) (occ sg : List Vec3) : GlobalPlanner (List Vec3) :=
  { config := toyConfig minThrust
    mapInitialized := true
    voxelMap := occ
    startGoal := sg
    traj := oldTraj
    trajStamp := Dbl.fin 100 }

/-- A point-cloud frame of one point `(1, 2, 3)` with stride 12 bytes. -/
def toyFrame : PointCloud2 := ⟨12, 12, [Dbl.fin 1, Dbl.fin 2, Dbl.fin 3]⟩

/-- The state the node is in after construction, `toyFrame`, and two accepted
goal requests at `(0, 0)` and `(40, 0)` with height fraction 0, the second at
clock value 300. -/
def toyReached : GlobalPlanner (List Vec3) :=
  { config := toyConfig (Dbl.fin 2)
    mapInitialized := true
    voxelMap := [pt 1 2 3]
    startGoal := [pt 0 0 1, pt 40 0 1]
    traj := [⟨Dbl.fin 10, []⟩]
    trajStamp := Dbl.fin 300 }

/-- A pose request at planar position `(x, y)` with height fraction `oz`. -/
def pose (x y oz : ℚ) : PoseStamped := ⟨Dbl.fin x, Dbl.fin y, Dbl.fin oz⟩

/-! ## Theorems -/

/-- C3: while the map is not ready, `targetCallBack` ignores a goal request:
the planner state after the call is the state before it (goal sequence,
trajectory, anchor timestamp, voxel map and readiness flag alike) and no call
is made at all, so no planning stage runs. -/
theorem targetCallBack_map_not_ready (E : Ext VM G) (s : GlobalPlanner VM) (msg : PoseStamped)
    (now : Dbl) (h : s.mapInitialized = false) :
    (targetCallBack E s msg now).1 = s ∧
    (targetCallBack E s msg now).1.startGoal = s.startGoal ∧
    (targetCallBack E s msg now).1.traj = s.traj ∧
    (targetCallBack E s msg now).1.trajStamp = s.trajStamp ∧
    (targetCallBack E s msg now).1.voxelMap = s.voxelMap ∧
    (targetCallBack E s msg now).1.mapInitialized = false ∧
    (targetCallBack E s msg now).2 = [] ∧
    (targetCallBack E s msg now).2.any Call.isStage = false := by
  simp [targetCallBack, h]

/-- Instance for C3: a planner state whose map is not ready and a goal request. -/
theorem targetCallBack_map_not_ready_witness :
    (targetCallBack (toyExt (Dbl.fin 3))
        { toyState (Dbl.fin 2) [] [pt 0 0 5] with mapInitialized := false }
        (pose 40 0 (1 / 4)) (Dbl.fin 200)).1
      = { toyState (Dbl.fin 2) [] [pt 0 0 5] with mapInitialized := false } ∧
    (targetCallBack (toyExt (Dbl.fin 3))
        { toyState (Dbl.fin 2) [] [pt 0 0 5] with mapInitialized := false }
        (pose 40 0 (1 / 4)) (Dbl.fin 200)).2 = [] :=
  have h := targetCallBack_map_not_ready (toyExt (Dbl.fin 3))
    { toyState (Dbl.fin 2) [] [pt 0 0 5] with mapInitialized := false }
    (pose 40 0 (1 / 4)) (Dbl.fin 200) rfl
  ⟨h.1, h.2.2.2.2.2.2.1⟩

/-- Once the readiness flag is set, a frame changes nothing. -/
theorem mapCallBack_of_initialized (E : Ext VM G) (s : GlobalPlanner VM) (msg : PointCloud2)
    (h : s.mapInitialized = true) : mapCallBack E s msg = s := by
  simp [mapCallBack, h]

/-- After any frame the readiness flag is set. -/
theorem mapCallBack_initialized (E : Ext VM G) (s : GlobalPlanner VM) (msg : PointCloud2) :
    (mapCallBack E s msg).mapInitialized = true := by
  unfold mapCallBack
  split <;> simp_all

/-- From a ready state, any sequence of frames changes nothing. -/
theorem foldl_mapCallBack_of_initialized (E : Ext VM G) (msgs : List PointCloud2) :
    ∀ s : GlobalPlanner VM, s.mapInitialized = true → msgs.foldl (mapCallBack E) s = s := by
  induction msgs with
  | nil => intro s _; rfl
  | cons m ms ih =>
    intro s h
    rw [List.foldl_cons, mapCallBack_of_initialized E s m h]
    exact ih s h

/-- C4: in a state whose readiness flag is set, `mapCallBack` returns the
state as it is (voxel map and flag unchanged: no `setOccupied`, no `dilate`);
and from any state, ingesting a frame followed by any further frames gives the
state that ingesting the first frame alone gives. -/
theorem mapCallBack_one_shot (E : Ext VM G) (s : GlobalPlanner VM) (msg : PointCloud2) :
    (s.mapInitialized = true →
      mapCallBack E s msg = s ∧
      (mapCallBack E s msg).voxelMap = s.voxelMap ∧
      (mapCallBack E s msg).mapInitialized = true) ∧
    (∀ rest : List PointCloud2,
      (msg :: rest).foldl (mapCallBack E) s = mapCallBack E s msg) := by
  refine ⟨fun h => ?_, fun rest => ?_⟩
  · rw [mapCallBack_of_initialized E s msg h]
    exact ⟨rfl, rfl, h⟩
  · rw [List.foldl_cons]
    exact foldl_mapCallBack_of_initialized E rest _ (mapCallBack_initialized E s msg)

/-- Instance for C4: a ready state and a frame with one valid point. -/
theorem mapCallBack_one_shot_witness :
    mapCallBack (toyExt (Dbl.fin 3)) (toyState (Dbl.fin 2) [] [])
        ⟨12, 12, [Dbl.fin 1, Dbl.fin 2, Dbl.fin 3]⟩ = toyState (Dbl.fin 2) [] [] :=
  ((mapCallBack_one_shot (toyExt (Dbl.fin 3)) (toyState (Dbl.fin 2) [] [])
    ⟨12, 12, [Dbl.fin 1, Dbl.fin 2, Dbl.fin 3]⟩).1 rfl).1

/-- Without exactly two points in the goal sequence `plan` does nothing. -/
theorem plan_of_length_ne_two (E : Ext VM G) (s : GlobalPlanner VM) (now : Dbl)
    (h : s.startGoal.length ≠ 2) : plan E s now = (s, []) := by
  simp [plan, h]

/-- With two points in the goal sequence the first call of `plan` is the path
search, so the trace of `plan` contains a path search exactly in that case. -/
theorem plan_any_isPlanPath (E : Ext VM G) (s : GlobalPlanner VM) (now : Dbl) :
    (plan E s now).2.any Call.isPlanPath = decide (s.startGoal.length = 2) := by
  unfold plan
  by_cases h : s.startGoal.length = 2
  · simp only [h, if_true]
    split_ifs <;> simp [Call.isPlanPath]
  · simp [h]

/-- C7: with two points in the goal sequence and a route of fewer than two
points, `plan` returns the planner state unchanged (trajectory, anchor
timestamp, goal sequence and voxel map alike) and makes no optimizer call:
its calls are exactly the path search, the surface extraction and the two
corridor calls. -/
theorem plan_degenerate_route (E : Ext VM G) (s : GlobalPlanner VM) (now : Dbl)
    (h2 : s.startGoal.length = 2) (hr : (planRoute E s).length < 2) :
    (plan E s now).1 = s ∧
    (plan E s now).1.traj = s.traj ∧
    (plan E s now).1.trajStamp = s.trajStamp ∧
    (plan E s now).1.startGoal = s.startGoal ∧
    (plan E s now).1.voxelMap = s.voxelMap ∧
    (plan E s now).1.mapInitialized = s.mapInitialized ∧
    (plan E s now).2.any Call.isOptimizer = false := by
  have hr1 : ¬ (planRoute E s).length > 1 := by omega
  unfold planRoute at hr1
  simp only [plan, h2, if_true, if_neg hr1]
  simp [Call.isOptimizer]

/-- Instance for C7: a goal pair and a path search that finds nothing. -/
theorem plan_degenerate_route_witness :
    (plan { toyExt (Dbl.fin 3) with planPath := fun _ _ _ _ _ _ => [] }
        (toyState (Dbl.fin 2) [] [pt 0 0 5, pt 40 0 5]) (Dbl.fin 200)).1
      = toyState (Dbl.fin 2) [] [pt 0 0 5, pt 40 0 5] :=
  (plan_degenerate_route { toyExt (Dbl.fin 3) with planPath := fun _ _ _ _ _ _ => [] }
    (toyState (Dbl.fin 2) [] [pt 0 0 5, pt 40 0 5]) (Dbl.fin 200) rfl (by decide)).1

/-- C9: `targetCallBack` calls the path search if and only if the map is
ready, the candidate point is reported free and the goal sequence held exactly
one point before the request; a request that is rejected (candidate reported
occupied) never leads to a path search; and `plan` on a goal sequence of any
length other than two returns the state unchanged and makes no call. -/
theorem targetCallBack_plans_iff (E : Ext VM G) (s : GlobalPlanner VM) (msg : PoseStamped)
    (now : Dbl) :
    ((targetCallBack E s msg now).2.any Call.isPlanPath = true ↔
      (s.mapInitialized = true ∧ E.query s.voxelMap (goalOf E s.config msg) = 0 ∧
        s.startGoal.length = 1)) ∧
    (E.query s.voxelMap (goalOf E s.config msg) ≠ 0 →
      (targetCallBack E s msg now).2.any Call.isPlanPath = false) ∧
    (s.startGoal.length ≠ 2 → plan E s now = (s, [])) := by
  have key : (targetCallBack E s msg now).2.any Call.isPlanPath = true ↔
      (s.mapInitialized = true ∧ E.query s.voxelMap (goalOf E s.config msg) = 0 ∧
        s.startGoal.length = 1) := by
    unfold targetCallBack
    by_cases hm : s.mapInitialized = true
    · by_cases hq : E.query s.voxelMap (goalOf E s.config msg) = 0
      · by_cases hl : s.startGoal.length ≥ 2
        · have hne : s.startGoal.length ≠ 1 := by omega
          simp [hm, hq, hl, hne, plan_any_isPlanPath, Call.isPlanPath]
        · simp only [hm, hl, hq, if_true, if_false, List.any_append, plan_any_isPlanPath]
          simp [Call.isPlanPath]
      · by_cases hl : s.startGoal.length ≥ 2
        · simp [hm, hq, hl, plan_any_isPlanPath, Call.isPlanPath]
        · have hne : s.startGoal.length ≠ 2 := by omega
          simp [hm, hq, hl, hne, plan_any_isPlanPath, Call.isPlanPath]
    · simp [hm]
  refine ⟨key, fun hq => ?_, fun h => plan_of_length_ne_two E s now h⟩
  cases hb : (targetCallBack E s msg now).2.any Call.isPlanPath with
  | false => rfl
  | true => exact absurd (key.mp hb).2.1 hq

/-- Instance for C9: a free second goal in a ready map; the path search runs. -/
theorem targetCallBack_plans_iff_witness :
    (targetCallBack (toyExt (Dbl.fin 3)) (toyState (Dbl.fin 2) [] [pt 0 0 5])
      (pose 40 0 (1 / 4)) (Dbl.fin 200)).2.any Call.isPlanPath = true :=
  (targetCallBack_plans_iff (toyExt (Dbl.fin 3)) (toyState (Dbl.fin 2) [] [pt 0 0 5])
    (pose 40 0 (1 / 4)) (Dbl.fin 200)).1.mpr ⟨rfl, rfl, rfl⟩

/-- C1, as stated, fails: the state holds a one-segment trajectory and two
goal points, the path search returns two points, `setup` returns false
(`minThrust = 20 > maxThrust = 12`), and after `plan` the trajectory is no
longer the one held before. -/
theorem plan_setup_failure_clears_traj :
    1 ≤ Trajectory.getPieceNum (toyState (Dbl.fin 20) [] [pt 0 0 5, pt 40 0 5]).traj ∧
    (toyState (Dbl.fin 20) [] [pt 0 0 5, pt 40 0 5]).startGoal.length = 2 ∧
    2 ≤ (planRoute (toyExt (Dbl.fin 3)) (toyState (Dbl.fin 20) [] [pt 0 0 5, pt 40 0 5])).length ∧
    (planSetup (toyExt (Dbl.fin 3)) (toyState (Dbl.fin 20) [] [pt 0 0 5, pt 40 0 5])).1 = false ∧
    (plan (toyExt (Dbl.fin 3)) (toyState (Dbl.fin 20) [] [pt 0 0 5, pt 40 0 5]) (Dbl.fin 200)).1.traj
      ≠ (toyState (Dbl.fin 20) [] [pt 0 0 5, pt 40 0 5]).traj := by
  refine ⟨by decide, rfl, by decide, by decide, ?_⟩
  decide

/-- C1, amended: with two goal points, a route of at least two points and a
`setup` that returns false, `plan` leaves the trajectory empty (it is cleared
before `setup` is called, whatever it held) and leaves the anchor timestamp,
the goal sequence, the voxel map and the readiness flag as they were; the
optimizer is not run. -/
theorem plan_setup_failure (E : Ext VM G) (s : GlobalPlanner VM) (now : Dbl)
    (h2 : s.startGoal.length = 2) (hr : 2 ≤ (planRoute E s).length)
    (hs : (planSetup E s).1 = false) :
    (plan E s now).1.traj = [] ∧
    Trajectory.getPieceNum (plan E s now).1.traj = 0 ∧
    (plan E s now).1.trajStamp = s.trajStamp ∧
    (plan E s now).1.startGoal = s.startGoal ∧
    (plan E s now).1.voxelMap = s.voxelMap ∧
    (plan E s now).1.mapInitialized = s.mapInitialized ∧
    (plan E s now).2.any (fun c => match c with
      | Call.optimize _ => true
      | _ => false) = false := by
  have hr1 : (planRoute E s).length > 1 := by omega
  unfold planRoute at hr1
  unfold planSetup planCorridor planRoute at hs
  simp only [plan, h2, if_true, if_pos hr1, hs]
  simp [Trajectory.clear, Trajectory.getPieceNum]

/-- Instance for C1 as amended: `minThrust = 20 > maxThrust = 12`, so `setup`
fails; the trajectory is empty afterwards and the anchor is still 100. -/
theorem plan_setup_failure_witness :
    (plan (toyExt (Dbl.fin 3)) (toyState (Dbl.fin 20) [] [pt 0 0 5, pt 40 0 5]) (Dbl.fin 200)).1.traj
      = [] ∧
    (plan (toyExt (Dbl.fin 3)) (toyState (Dbl.fin 20) [] [pt 0 0 5, pt 40 0 5])
      (Dbl.fin 200)).1.trajStamp = Dbl.fin 100 :=
  have h := plan_setup_failure (toyExt (Dbl.fin 3))
    (toyState (Dbl.fin 20) [] [pt 0 0 5, pt 40 0 5]) (Dbl.fin 200) rfl (by decide) (by decide)
  ⟨h.1, h.2.2.1⟩

/-- The candidate point the toy environment derives from a pose: the box is
`[0, 20]` in height and the dilation radius is 1. -/
theorem toy_goalOf (cost m : Dbl) (x y oz : ℚ) :
    goalOf (toyExt cost) (toyConfig m) (pose x y oz) = pt x y (1 + |oz| * 18) := by
  norm_num [goalOf, zGoalOf, toyExt, toyConfig, pose, pt, vecAt, exactOp, Dbl.fabs]

/-- What `targetCallBack` does with a request whose candidate is reported
occupied: a held pair is dropped, the warning is logged, nothing else. -/
theorem targetCallBack_of_occupied (E : Ext VM G) (s : GlobalPlanner VM) (msg : PoseStamped)
    (now : Dbl) (hm : s.mapInitialized = true)
    (hq : E.query s.voxelMap (goalOf E s.config msg) ≠ 0) :
    targetCallBack E s msg now =
      (if s.startGoal.length ≥ 2 then { s with startGoal := [] } else s, [Call.rosWarn]) := by
  by_cases hl : s.startGoal.length ≥ 2
  · simp [targetCallBack, hm, hq, hl, plan]
  · have h2 : s.startGoal.length ≠ 2 := by omega
    simp [targetCallBack, hm, hq, hl, h2, plan]

/-- C2, as stated, fails for a prior sequence of length 2: the map is ready,
the candidate `(3, 4, 10)` is an occupied point, the goal sequence holds two
points, and after `targetCallBack` the goal sequence is empty, not the pair
held before. -/
theorem targetCallBack_rejected_clears_pair :
    (toyState (Dbl.fin 2) [pt 3 4 10] [pt 0 0 5, pt 40 0 5]).mapInitialized = true ∧
    (toyExt (Dbl.fin 3)).query (toyState (Dbl.fin 2) [pt 3 4 10] [pt 0 0 5, pt 40 0 5]).voxelMap
      (goalOf (toyExt (Dbl.fin 3))
        (toyState (Dbl.fin 2) [pt 3 4 10] [pt 0 0 5, pt 40 0 5]).config (pose 3 4 (1 / 2))) ≠ 0 ∧
    (toyState (Dbl.fin 2) [pt 3 4 10] [pt 0 0 5, pt 40 0 5]).startGoal.length = 2 ∧
    (targetCallBack (toyExt (Dbl.fin 3)) (toyState (Dbl.fin 2) [pt 3 4 10] [pt 0 0 5, pt 40 0 5])
      (pose 3 4 (1 / 2)) (Dbl.fin 200)).1.startGoal = [] ∧
    (targetCallBack (toyExt (Dbl.fin 3)) (toyState (Dbl.fin 2) [pt 3 4 10] [pt 0 0 5, pt 40 0 5])
      (pose 3 4 (1 / 2)) (Dbl.fin 200)).1.startGoal
      ≠ (toyState (Dbl.fin 2) [pt 3 4 10] [pt 0 0 5, pt 40 0 5]).startGoal := by
  have hg : goalOf (toyExt (Dbl.fin 3)) (toyConfig (Dbl.fin 2)) (pose 3 4 (1 / 2)) = pt 3 4 10 := by
    rw [toy_goalOf]; norm_num [abs_of_pos]
  have hq : (toyExt (Dbl.fin 3)).query [pt 3 4 10]
      (goalOf (toyExt (Dbl.fin 3)) (toyConfig (Dbl.fin 2)) (pose 3 4 (1 / 2))) ≠ 0 := by
    rw [hg]; simp [toyExt]
  have hc := targetCallBack_of_occupied (toyExt (Dbl.fin 3))
      (toyState (Dbl.fin 2) [pt 3 4 10] [pt 0 0 5, pt 40 0 5])
      (pose 3 4 (1 / 2)) (Dbl.fin 200) rfl hq
  refine ⟨rfl, hq, rfl, ?_, ?_⟩
  · rw [hc]; rfl
  · rw [hc]; simp [toyState]

/-- C2, amended: with the map ready and the candidate point reported
occupied, `targetCallBack` rejects the request: its only call is the warning,
no planning stage runs, the candidate is not appended, and trajectory, anchor
timestamp, voxel map and readiness flag are unchanged. The goal sequence after
the call equals the one before when that held 0 or 1 point, and is empty when
it held 2 (the pair is cleared before the occupancy check). -/
theorem targetCallBack_rejected (E : Ext VM G) (s : GlobalPlanner VM) (msg : PoseStamped)
    (now : Dbl) (hm : s.mapInitialized = true)
    (hq : E.query s.voxelMap (goalOf E s.config msg) ≠ 0) :
    (targetCallBack E s msg now).2 = [Call.rosWarn] ∧
    (s.startGoal.length < 2 → (targetCallBack E s msg now).1 = s) ∧
    (s.startGoal.length < 2 → (targetCallBack E s msg now).1.startGoal = s.startGoal) ∧
    (2 ≤ s.startGoal.length → (targetCallBack E s msg now).1.startGoal = []) ∧
    (targetCallBack E s msg now).1.traj = s.traj ∧
    (targetCallBack E s msg now).1.trajStamp = s.trajStamp ∧
    (targetCallBack E s msg now).1.voxelMap = s.voxelMap ∧
    (targetCallBack E s msg now).1.mapInitialized = s.mapInitialized := by
  rw [targetCallBack_of_occupied E s msg now hm hq]
  by_cases hl : s.startGoal.length ≥ 2
  · have hn : ¬ s.startGoal.length < 2 := by omega
    simp [hl, hn]
  · have hn : s.startGoal.length < 2 := by omega
    simp [hl, hn]

/-- Instance for C2 as amended: an occupied candidate with one point held; the
held point stays. -/
theorem targetCallBack_rejected_witness :
    (targetCallBack (toyExt (Dbl.fin 3)) (toyState (Dbl.fin 2) [pt 3 4 10] [pt 0 0 5])
      (pose 3 4 (1 / 2)) (Dbl.fin 200)).2 = [Call.rosWarn] ∧
    (targetCallBack (toyExt (Dbl.fin 3)) (toyState (Dbl.fin 2) [pt 3 4 10] [pt 0 0 5])
      (pose 3 4 (1 / 2)) (Dbl.fin 200)).1.startGoal = [pt 0 0 5] :=
  have hg : goalOf (toyExt (Dbl.fin 3)) (toyConfig (Dbl.fin 2)) (pose 3 4 (1 / 2)) = pt 3 4 10 := by
    rw [toy_goalOf]; norm_num [abs_of_pos]
  have h := targetCallBack_rejected (toyExt (Dbl.fin 3))
    (toyState (Dbl.fin 2) [pt 3 4 10] [pt 0 0 5]) (pose 3 4 (1 / 2)) (Dbl.fin 200) rfl
    (by
      show (toyExt (Dbl.fin 3)).query [pt 3 4 10]
        (goalOf (toyExt (Dbl.fin 3)) (toyConfig (Dbl.fin 2)) (pose 3 4 (1 / 2))) ≠ 0
      rw [hg]; simp [toyExt])
  ⟨h.1, h.2.2.1 (by decide)⟩

/-- The planner state after `plan`, stage answer by stage answer. -/
theorem plan_fst (E : Ext VM G) (s : GlobalPlanner VM) (now : Dbl) :
    (plan E s now).1 =
      if s.startGoal.length = 2 then
        if (planRoute E s).length > 1 then
          if !(planSetup E s).1 then { s with traj := [] }
          else if (planOptimize E s).1.isinf then { s with traj := (planOptimize E s).2 }
          else if Trajectory.getPieceNum (planOptimize E s).2 > 0 then
            { s with traj := (planOptimize E s).2, trajStamp := now }
          else { s with traj := (planOptimize E s).2 }
        else s
      else s := by
  unfold plan planOptimize planSetup planCorridor planRoute Trajectory.clear
  dsimp only
  split_ifs <;> rfl

/-- The anchor timestamp after `plan` on a goal pair: the clock value when the
route has two points or more, `setup` succeeds, the cost is not an infinity
and the trajectory written has a segment; the old value otherwise. -/
theorem plan_trajStamp (E : Ext VM G) (s : GlobalPlanner VM) (now : Dbl)
    (h2 : s.startGoal.length = 2) :
    (plan E s now).1.trajStamp =
      if 2 ≤ (planRoute E s).length ∧ (planSetup E s).1 = true ∧
          (planOptimize E s).1.isinf = false ∧
          1 ≤ Trajectory.getPieceNum (planOptimize E s).2 then now else s.trajStamp := by
  rw [plan_fst, if_pos h2]
  generalize planRoute E s = r
  generalize planOptimize E s = o
  generalize planSetup E s = st
  have e1 : 2 ≤ r.length ↔ r.length > 1 := by constructor <;> intro h <;> omega
  have e2 : 1 ≤ Trajectory.getPieceNum o.2 ↔ Trajectory.getPieceNum o.2 > 0 := by
    constructor <;> intro h <;> omega
  simp only [e1, e2]
  by_cases h1 : r.length > 1 <;> by_cases h3 : st.1 = true <;>
    by_cases h4 : o.1.isinf = true <;> by_cases h5 : Trajectory.getPieceNum o.2 > 0 <;>
    simp [h1, h3, h4, h5]

/-- C6, as stated, fails for a NaN cost: the goal sequence holds two points,
the route has two points, `setup` succeeds, `optimize` returns NaN (which is
not a finite cost) together with a one-segment trajectory, and `plan` sets the
anchor timestamp to the clock value 200 instead of keeping the old value 100. -/
theorem plan_nan_cost_sets_stamp :
    (toyState (Dbl.fin 2) [] [pt 0 0 5, pt 40 0 5]).startGoal.length = 2 ∧
    2 ≤ (planRoute (toyExt Dbl.nan) (toyState (Dbl.fin 2) [] [pt 0 0 5, pt 40 0 5])).length ∧
    (planSetup (toyExt Dbl.nan) (toyState (Dbl.fin 2) [] [pt 0 0 5, pt 40 0 5])).1 = true ∧
    (planOptimize (toyExt Dbl.nan) (toyState (Dbl.fin 2) [] [pt 0 0 5, pt 40 0 5])).1.isnan
      = true ∧
    (toyState (Dbl.fin 2) [] [pt 0 0 5, pt 40 0 5]).trajStamp = Dbl.fin 100 ∧
    (plan (toyExt Dbl.nan) (toyState (Dbl.fin 2) [] [pt 0 0 5, pt 40 0 5])
      (Dbl.fin 200)).1.trajStamp = Dbl.fin 200 ∧
    (plan (toyExt Dbl.nan) (toyState (Dbl.fin 2) [] [pt 0 0 5, pt 40 0 5])
      (Dbl.fin 200)).1.trajStamp
      ≠ (toyState (Dbl.fin 2) [] [pt 0 0 5, pt 40 0 5]).trajStamp := by
  refine ⟨rfl, by decide, by decide, rfl, rfl, by decide, by decide⟩

/-- C6, amended: on a goal sequence of exactly two points, `plan` sets the
anchor timestamp to the current time when the route has at least two points,
`setup` succeeds, the cost `optimize` returns is neither `+inf` nor `-inf` (a
NaN cost passes the test) and the trajectory written has at least one
segment; in every other case the anchor timestamp keeps its previous value. -/
theorem plan_sets_stamp_iff (E : Ext VM G) (s : GlobalPlanner VM) (now : Dbl)
    (h2 : s.startGoal.length = 2) :
    ((2 ≤ (planRoute E s).length ∧ (planSetup E s).1 = true ∧
        (planOptimize E s).1.isinf = false ∧
        1 ≤ Trajectory.getPieceNum (planOptimize E s).2) →
      (plan E s now).1.trajStamp = now ∧ (plan E s now).1.traj = (planOptimize E s).2) ∧
    (¬ (2 ≤ (planRoute E s).length ∧ (planSetup E s).1 = true ∧
        (planOptimize E s).1.isinf = false ∧
        1 ≤ Trajectory.getPieceNum (planOptimize E s).2) →
      (plan E s now).1.trajStamp = s.trajStamp) := by
  refine ⟨fun h => ⟨?_, ?_⟩, fun h => ?_⟩
  · rw [plan_trajStamp E s now h2, if_pos h]
  · obtain ⟨hr, hs, hi, hp⟩ := h
    have hr1 : (planRoute E s).length > 1 := by omega
    have hp1 : Trajectory.getPieceNum (planOptimize E s).2 > 0 := by omega
    rw [plan_fst, if_pos h2, if_pos hr1]
    simp [hs, hi, hp1]
  · rw [plan_trajStamp E s now h2, if_neg h]

/-- Instance for C6 as amended: a successful plan sets the anchor to the clock
value 200, a plan whose cost is `+inf` keeps the old anchor 100. -/
theorem plan_sets_stamp_iff_witness :
    (plan (toyExt (Dbl.fin 3)) (toyState (Dbl.fin 2) [] [pt 0 0 5, pt 40 0 5])
      (Dbl.fin 200)).1.trajStamp = Dbl.fin 200 ∧
    (plan (toyExt Dbl.pinf) (toyState (Dbl.fin 2) [] [pt 0 0 5, pt 40 0 5])
      (Dbl.fin 200)).1.trajStamp = Dbl.fin 100 :=
  ⟨((plan_sets_stamp_iff (toyExt (Dbl.fin 3)) (toyState (Dbl.fin 2) [] [pt 0 0 5, pt 40 0 5])
      (Dbl.fin 200) rfl).1 (by decide)).1,
   (plan_sets_stamp_iff (toyExt Dbl.pinf) (toyState (Dbl.fin 2) [] [pt 0 0 5, pt 40 0 5])
      (Dbl.fin 200) rfl).2 (by decide)⟩

/-- A value that is `<=` another is not `>` it. -/
theorem Dbl.lt_eq_false_of_le (a b : Dbl) (h : Dbl.le a b = true) : Dbl.lt b a = false := by
  cases a <;> cases b <;> simp_all [Dbl.le, Dbl.lt]

/-- No value is `<` itself. -/
theorem Dbl.lt_self (a : Dbl) : Dbl.lt a a = false := by
  cases a <;> simp [Dbl.lt]

/-- The trace of `process` is empty unless a trajectory with a segment is held
and the elapsed time is strictly inside the window. -/
theorem process_ne_nil_iff (E : Ext VM G) (s : GlobalPlanner VM) (now : Dbl) :
    process E s now ≠ [] ↔
      (1 ≤ Trajectory.getPieceNum s.traj ∧
        Dbl.lt Dbl.zero (E.fsub now s.trajStamp) = true ∧
        Dbl.lt (E.fsub now s.trajStamp) (Trajectory.getTotalDuration E s.traj) = true) := by
  unfold process
  by_cases h1 : Trajectory.getPieceNum s.traj > 0
  · have h1a : 1 ≤ Trajectory.getPieceNum s.traj := h1
    by_cases h2 : Dbl.lt Dbl.zero (E.fsub now s.trajStamp) = true <;>
      by_cases h3 : Dbl.lt (E.fsub now s.trajStamp) (Trajectory.getTotalDuration E s.traj) = true <;>
      simp [h1, h1a, h2, h3, Dbl.gt]
  · have h1a : ¬ 1 ≤ Trajectory.getPieceNum s.traj := h1
    simp [h1, h1a]

/-- C5: with `elapsed = now - trajStamp` (in double arithmetic), `process`
emits something if and only if the trajectory held has at least one segment
and `0 < elapsed < totalDuration`; what it emits then is telemetry only. It
emits nothing when `elapsed <= 0`, when `elapsed >= totalDuration`, when
`elapsed` is exactly `0` or exactly `totalDuration`, and when the trajectory
has no segment. -/
theorem process_emits_iff (E : Ext VM G) (s : GlobalPlanner VM) (now : Dbl) :
    (process E s now ≠ [] ↔
      (1 ≤ Trajectory.getPieceNum s.traj ∧
        Dbl.lt Dbl.zero (E.fsub now s.trajStamp) = true ∧
        Dbl.lt (E.fsub now s.trajStamp) (Trajectory.getTotalDuration E s.traj) = true)) ∧
    (process E s now).all Call.isTelemetry = true ∧
    (Dbl.le (E.fsub now s.trajStamp) Dbl.zero = true → process E s now = []) ∧
    (Dbl.ge (E.fsub now s.trajStamp) (Trajectory.getTotalDuration E s.traj) = true →
      process E s now = []) ∧
    (E.fsub now s.trajStamp = Dbl.zero → process E s now = []) ∧
    (E.fsub now s.trajStamp = Trajectory.getTotalDuration E s.traj → process E s now = []) ∧
    (Trajectory.getPieceNum s.traj = 0 → process E s now = []) := by
  have key := process_ne_nil_iff E s now
  have nil_of : ∀ {p : Prop}, (p → ¬ (1 ≤ Trajectory.getPieceNum s.traj ∧
        Dbl.lt Dbl.zero (E.fsub now s.trajStamp) = true ∧
        Dbl.lt (E.fsub now s.trajStamp) (Trajectory.getTotalDuration E s.traj) = true)) →
      p → process E s now = [] := by
    intro p hp h
    by_contra hne
    exact hp h (key.mp hne)
  refine ⟨key, ?_, nil_of ?_, nil_of ?_, nil_of ?_, nil_of ?_, nil_of ?_⟩
  · unfold process
    dsimp only
    split_ifs <;> rfl
  · intro h hc
    rw [Dbl.lt_eq_false_of_le _ _ h] at hc
    simp at hc
  · intro h hc
    rw [Dbl.lt_eq_false_of_le _ _ h] at hc
    simp at hc
  · intro h hc
    rw [h, Dbl.lt_self] at hc
    simp at hc
  · intro h hc
    rw [h, Dbl.lt_self] at hc
    simp at hc
  · intro h hc
    omega

/-- Instance for C5: a one-segment trajectory of duration 5 anchored at time
100; at time 102 the loop emits, at time 100 (elapsed exactly 0) and at time
105 (elapsed exactly the total duration) it does not. -/
theorem process_emits_iff_witness :
    process (toyExt (Dbl.fin 3)) (toyState (Dbl.fin 2) [] []) (Dbl.fin 102) ≠ [] ∧
    process (toyExt (Dbl.fin 3)) (toyState (Dbl.fin 2) [] []) (Dbl.fin 100) = [] ∧
    process (toyExt (Dbl.fin 3)) (toyState (Dbl.fin 2) [] []) (Dbl.fin 105) = [] :=
  ⟨(process_emits_iff (toyExt (Dbl.fin 3)) (toyState (Dbl.fin 2) [] []) (Dbl.fin 102)).1.mpr
      (by norm_num [toyExt, toyState, oldTraj, exactOp, Trajectory.getPieceNum,
        Trajectory.getTotalDuration, Dbl.lt, Dbl.zero]),
   (process_emits_iff (toyExt (Dbl.fin 3)) (toyState (Dbl.fin 2) [] []) (Dbl.fin 100)).2.2.1
      (by norm_num [toyExt, toyState, exactOp, Dbl.le, Dbl.zero]),
   (process_emits_iff (toyExt (Dbl.fin 3)) (toyState (Dbl.fin 2) [] []) (Dbl.fin 105)).2.2.2.1
      (by norm_num [toyExt, toyState, oldTraj, exactOp, Trajectory.getTotalDuration, Dbl.ge,
        Dbl.le, Dbl.zero])⟩

/-- The goal sequence is not written by `plan`. -/
theorem plan_startGoal (E : Ext VM G) (s : GlobalPlanner VM) (now : Dbl) :
    (plan E s now).1.startGoal = s.startGoal := by
  rw [plan_fst]
  split_ifs <;> rfl

/-- The goal sequence is not written by `mapCallBack`. -/
theorem mapCallBack_startGoal (E : Ext VM G) (s : GlobalPlanner VM) (msg : PointCloud2) :
    (mapCallBack E s msg).startGoal = s.startGoal := by
  unfold mapCallBack
  split_ifs <;> rfl

/-- The goal sequence after `targetCallBack`, case by case. -/
theorem targetCallBack_startGoal (E : Ext VM G) (s : GlobalPlanner VM) (msg : PoseStamped)
    (now : Dbl) :
    (targetCallBack E s msg now).1.startGoal =
      if s.mapInitialized = true then
        (if s.startGoal.length ≥ 2 then [] else s.startGoal) ++
          (if E.query s.voxelMap (goalOf E s.config msg) = 0 then [goalOf E s.config msg] else [])
      else s.startGoal := by
  unfold targetCallBack
  by_cases hm : s.mapInitialized = true
  · simp only [hm, if_true, plan_startGoal]
    by_cases hl : s.startGoal.length ≥ 2 <;>
      by_cases hq : E.query s.voxelMap (goalOf E s.config msg) = 0 <;>
      simp [hl, hq]
  · simp [hm]

/-- Whatever the state before, the goal sequence after `targetCallBack` has
at most as many points as `max 2` of what it had. -/
theorem targetCallBack_length_le (E : Ext VM G) (s : GlobalPlanner VM) (msg : PoseStamped)
    (now : Dbl) (h : s.startGoal.length ≤ 2) :
    (targetCallBack E s msg now).1.startGoal.length ≤ 2 := by
  rw [targetCallBack_startGoal]
  split_ifs <;> first | omega | (simp; omega) | simp

/-- Every reachable state holds at most two goal points. -/
theorem reachable_length_le (E : Ext VM G) (s : GlobalPlanner VM) (h : Reachable E s) :
    s.startGoal.length ≤ 2 := by
  induction h with
  | init conf stamp0 => simp [GlobalPlanner.init]
  | step s i _ ih =>
    cases i with
    | frame msg => simpa [step, mapCallBack_startGoal] using ih
    | target msg now => exact targetCallBack_length_le E s msg now ih
    | tick now => exact ih

/-- C8: a reachable planner state holds 0, 1 or 2 goal points; and a request
accepted in it (map ready, candidate reported free) while it holds two points
leaves the goal sequence equal to the one-element list of the candidate: the
pair held is dropped, the sequence never grows to three points. -/
theorem startGoal_at_most_two (E : Ext VM G) (s : GlobalPlanner VM) (h : Reachable E s) :
    (s.startGoal.length = 0 ∨ s.startGoal.length = 1 ∨ s.startGoal.length = 2) ∧
    (∀ (msg : PoseStamped) (now : Dbl), s.mapInitialized = true →
      E.query s.voxelMap (goalOf E s.config msg) = 0 → s.startGoal.length = 2 →
      (targetCallBack E s msg now).1.startGoal = [goalOf E s.config msg]) := by
  have hle := reachable_length_le E s h
  refine ⟨by omega, fun msg now hm hq hl => ?_⟩
  rw [targetCallBack_startGoal]
  have hl2 : s.startGoal.length ≥ 2 := by omega
  simp [hm, hq, hl2]

/-- With the map ready and the candidate reported free, `targetCallBack` is
`plan` on the state with the candidate appended (to the empty sequence when a
pair was held). -/
theorem targetCallBack_of_free (E : Ext VM G) (s : GlobalPlanner VM) (msg : PoseStamped)
    (now : Dbl) (hm : s.mapInitialized = true)
    (hq : E.query s.voxelMap (goalOf E s.config msg) = 0) :
    (targetCallBack E s msg now).1 =
      (plan E { s with startGoal :=
        (if s.startGoal.length ≥ 2 then [] else s.startGoal) ++ [goalOf E s.config msg] } now).1 := by
  unfold targetCallBack
  by_cases hl : s.startGoal.length ≥ 2 <;> simp [hm, hl, hq]

/-- The state `toyReached` is reached from the constructed state by `toyFrame`
and two goal requests. -/
theorem toy_reachable :
    (step (toyExt (Dbl.fin 3))
      (step (toyExt (Dbl.fin 3))
        (step (toyExt (Dbl.fin 3))
          (GlobalPlanner.init (toyExt (Dbl.fin 3)) (toyConfig (Dbl.fin 2)) Dbl.nan)
          (Input.frame toyFrame)).1
        (Input.target (pose 0 0 0) (Dbl.fin 200))).1
      (Input.target (pose 40 0 0) (Dbl.fin 300))).1
    = toyReached := by
  have g1 : goalOf (toyExt (Dbl.fin 3)) (toyConfig (Dbl.fin 2)) (pose 0 0 0) = pt 0 0 1 := by
    rw [toy_goalOf]; norm_num
  have g2 : goalOf (toyExt (Dbl.fin 3)) (toyConfig (Dbl.fin 2)) (pose 40 0 0) = pt 40 0 1 := by
    rw [toy_goalOf]; norm_num
  have n1 : ¬ pt 0 0 1 = pt 1 2 3 := by simp [pt]
  have n2 : ¬ pt 40 0 1 = pt 1 2 3 := by simp [pt]
  have hs1 : (step (toyExt (Dbl.fin 3))
      (GlobalPlanner.init (toyExt (Dbl.fin 3)) (toyConfig (Dbl.fin 2)) Dbl.nan)
      (Input.frame toyFrame)).1 =
      { config := toyConfig (Dbl.fin 2), mapInitialized := true, voxelMap := [pt 1 2 3],
        startGoal := [], traj := [], trajStamp := Dbl.nan } := rfl
  rw [hs1]
  have hs2 : (step (toyExt (Dbl.fin 3))
      { config := toyConfig (Dbl.fin 2), mapInitialized := true, voxelMap := [pt 1 2 3],
        startGoal := [], traj := [], trajStamp := Dbl.nan }
      (Input.target (pose 0 0 0) (Dbl.fin 200))).1 =
      { config := toyConfig (Dbl.fin 2), mapInitialized := true, voxelMap := [pt 1 2 3],
        startGoal := [pt 0 0 1], traj := [], trajStamp := Dbl.nan } := by
    show (targetCallBack _ _ _ _).1 = _
    rw [targetCallBack_of_free _ _ _ _ rfl (by
      show (toyExt (Dbl.fin 3)).query [pt 1 2 3]
        (goalOf (toyExt (Dbl.fin 3)) (toyConfig (Dbl.fin 2)) (pose 0 0 0)) = 0
      rw [g1]; simp [toyExt, n1])]
    dsimp only
    rw [g1]; rfl
  rw [hs2]
  show (targetCallBack _ _ _ _).1 = _
  rw [targetCallBack_of_free _ _ _ _ rfl (by
    show (toyExt (Dbl.fin 3)).query [pt 1 2 3]
      (goalOf (toyExt (Dbl.fin 3)) (toyConfig (Dbl.fin 2)) (pose 40 0 0)) = 0
    rw [g2]; simp [toyExt, n2])]
  dsimp only
  rw [g2]; rfl

/-- Instance for C8: the reachable state `toyReached` and a free third request
at `(20, 0)`; the goal sequence afterwards is the candidate alone. -/
theorem startGoal_at_most_two_witness :
    toyReached.startGoal.length = 2 ∧
    (targetCallBack (toyExt (Dbl.fin 3)) toyReached (pose 20 0 0) (Dbl.fin 400)).1.startGoal
      = [pt 20 0 1] := by
  have g3 : goalOf (toyExt (Dbl.fin 3)) (toyConfig (Dbl.fin 2)) (pose 20 0 0) = pt 20 0 1 := by
    rw [toy_goalOf]; norm_num
  have n3 : ¬ pt 20 0 1 = pt 1 2 3 := by simp [pt]
  have h := startGoal_at_most_two (toyExt (Dbl.fin 3)) _
    (Reachable.step _ (Input.target (pose 40 0 0) (Dbl.fin 300))
      (Reachable.step _ (Input.target (pose 0 0 0) (Dbl.fin 200))
        (Reachable.step _ (Input.frame toyFrame)
          (Reachable.init (toyConfig (Dbl.fin 2)) Dbl.nan))))
  rw [toy_reachable] at h
  have h2 := h.2 (pose 20 0 0) (Dbl.fin 400) rfl (by
    show (toyExt (Dbl.fin 3)).query [pt 1 2 3]
      (goalOf (toyExt (Dbl.fin 3)) (toyConfig (Dbl.fin 2)) (pose 20 0 0)) = 0
    rw [g3]; simp [toyExt, n3]) rfl
  refine ⟨rfl, ?_⟩
  rw [h2]
  exact congrArg (fun g => [g]) g3

/-- The constructor does not read `timeoutRRT`. -/
theorem init_withTimeoutRRT (E : Ext VM G) (conf : Config) (stamp0 t : Dbl) :
    GlobalPlanner.init E { conf with timeoutRRT := t } stamp0 =
      (GlobalPlanner.init E conf stamp0).withTimeoutRRT t := rfl

/-- The frame handler does not read `timeoutRRT`. -/
theorem mapCallBack_withTimeoutRRT (E : Ext VM G) (s : GlobalPlanner VM) (t : Dbl)
    (msg : PointCloud2) :
    mapCallBack E (s.withTimeoutRRT t) msg = (mapCallBack E s msg).withTimeoutRRT t := by
  unfold mapCallBack GlobalPlanner.withTimeoutRRT
  dsimp only
  split_ifs <;> rfl

/-- The planning function does not read `timeoutRRT`. -/
theorem plan_withTimeoutRRT (E : Ext VM G) (s : GlobalPlanner VM) (t : Dbl) (now : Dbl) :
    plan E (s.withTimeoutRRT t) now = ((plan E s now).1.withTimeoutRRT t, (plan E s now).2) := by
  have e : ∀ (r : List Vec3) (h : List HPoly),
      setupArgsOf { s.config with timeoutRRT := t } r h = setupArgsOf s.config r h :=
    fun _ _ => rfl
  unfold plan GlobalPlanner.withTimeoutRRT
  dsimp only
  simp only [e]
  split_ifs <;> rfl

/-- The goal handler is `acceptGoal` followed by `plan`. -/
theorem targetCallBack_eq (E : Ext VM G) (s : GlobalPlanner VM) (msg : PoseStamped) (now : Dbl) :
    targetCallBack E s msg now =
      if s.mapInitialized then
        ((plan E (acceptGoal E s msg).1 now).1,
         (acceptGoal E s msg).2 ++ (plan E (acceptGoal E s msg).1 now).2)
      else (s, []) := rfl

/-- The acceptance step does not read `timeoutRRT`. -/
theorem acceptGoal_withTimeoutRRT (E : Ext VM G) (s : GlobalPlanner VM) (t : Dbl)
    (msg : PoseStamped) :
    acceptGoal E (s.withTimeoutRRT t) msg =
      ((acceptGoal E s msg).1.withTimeoutRRT t, (acceptGoal E s msg).2) := by
  have e : goalOf E { s.config with timeoutRRT := t } msg = goalOf E s.config msg := rfl
  unfold acceptGoal GlobalPlanner.withTimeoutRRT
  by_cases hl : s.startGoal.length ≥ 2 <;>
    by_cases hq : E.query s.voxelMap (goalOf E s.config msg) = 0 <;>
    simp only [hl, if_true, if_false, e, hq]

/-- The goal handler does not read `timeoutRRT`. -/
theorem targetCallBack_withTimeoutRRT (E : Ext VM G) (s : GlobalPlanner VM) (t : Dbl)
    (msg : PoseStamped) (now : Dbl) :
    targetCallBack E (s.withTimeoutRRT t) msg now =
      ((targetCallBack E s msg now).1.withTimeoutRRT t, (targetCallBack E s msg now).2) := by
  rw [targetCallBack_eq, targetCallBack_eq, acceptGoal_withTimeoutRRT, plan_withTimeoutRRT]
  have hm2 : (s.withTimeoutRRT t).mapInitialized = s.mapInitialized := rfl
  rw [hm2]
  split_ifs <;> rfl

/-- The command loop does not read `timeoutRRT`. -/
theorem process_withTimeoutRRT (E : Ext VM G) (s : GlobalPlanner VM) (t : Dbl) (now : Dbl) :
    process E (s.withTimeoutRRT t) now = process E s now := rfl

/-- One input has the same effect whatever `timeoutRRT` is. -/
theorem step_withTimeoutRRT (E : Ext VM G) (s : GlobalPlanner VM) (t : Dbl) (i : Input) :
    step E (s.withTimeoutRRT t) i = ((step E s i).1.withTimeoutRRT t, (step E s i).2) := by
  cases i with
  | frame msg => simp only [step, mapCallBack_withTimeoutRRT]
  | target msg now => simp only [step, targetCallBack_withTimeoutRRT]
  | tick now => simp only [step, process_withTimeoutRRT]

/-- A sequence of inputs has the same effect whatever `timeoutRRT` is. -/
theorem run_withTimeoutRRT (E : Ext VM G) (t : Dbl) (is : List Input) :
    ∀ s : GlobalPlanner VM,
      run E (s.withTimeoutRRT t) is = ((run E s is).1.withTimeoutRRT t, (run E s is).2) := by
  induction is with
  | nil => intro s; rfl
  | cons i is ih =>
    intro s
    simp only [run, step_withTimeoutRRT, ih]

/-- The timeout budgets `plan` hands to the path search: the constant `1`,
once, when the goal sequence holds two points. -/
theorem plan_timeouts (E : Ext VM G) (s : GlobalPlanner VM) (now : Dbl) :
    (plan E s now).2.filterMap Call.planPathTimeout =
      if s.startGoal.length = 2 then [Dbl.fin 1] else [] := by
  unfold plan
  dsimp only
  split_ifs <;> rfl

/-- Every timeout budget handed to the path search in a run is `1`. -/
theorem run_timeouts (E : Ext VM G) (is : List Input) :
    ∀ s : GlobalPlanner VM, ∀ d ∈ (run E s is).2.filterMap Call.planPathTimeout, d = Dbl.fin 1 := by
  induction is with
  | nil => intro s d hd; simp [run] at hd
  | cons i is ih =>
    intro s d hd
    simp only [run, List.filterMap_append, List.mem_append] at hd
    rcases hd with hd | hd
    · cases i with
      | frame msg => simp [step] at hd
      | target msg now =>
        simp only [step] at hd
        rw [targetCallBack_eq] at hd
        split_ifs at hd with hm
        · simp only [List.filterMap_append, List.mem_append, plan_timeouts] at hd
          rcases hd with hd | hd
          · unfold acceptGoal at hd
            dsimp only at hd
            split_ifs at hd <;> simp [Call.planPathTimeout] at hd
          · split_ifs at hd <;> simp_all
        · simp at hd
      | tick now =>
        simp only [step] at hd
        unfold process at hd
        dsimp only at hd
        split_ifs at hd <;> simp [Call.planPathTimeout] at hd
    · exact ih _ d hd

/-- C10: the configured path-search timeout has no influence. For a planner
state and the same state with any other value of `config.timeoutRRT`: the
constructor, `mapCallBack`, `plan`, `targetCallBack` and `process` give the
same resulting state (up to that one configuration field) and the same calls
with the same arguments, and so does every sequence of frames, goal requests
and ticks; and the timeout budget `plan` passes to the path search is the
constant `1`, in every run. -/
theorem timeoutRRT_no_influence (E : Ext VM G) (s : GlobalPlanner VM) (t : Dbl) :
    (∀ (conf : Config) (stamp0 : Dbl),
      GlobalPlanner.init E { conf with timeoutRRT := t } stamp0 =
        (GlobalPlanner.init E conf stamp0).withTimeoutRRT t) ∧
    (∀ msg : PointCloud2,
      mapCallBack E (s.withTimeoutRRT t) msg = (mapCallBack E s msg).withTimeoutRRT t) ∧
    (∀ now : Dbl,
      plan E (s.withTimeoutRRT t) now = ((plan E s now).1.withTimeoutRRT t, (plan E s now).2)) ∧
    (∀ (msg : PoseStamped) (now : Dbl),
      targetCallBack E (s.withTimeoutRRT t) msg now =
        ((targetCallBack E s msg now).1.withTimeoutRRT t, (targetCallBack E s msg now).2)) ∧
    (∀ now : Dbl, process E (s.withTimeoutRRT t) now = process E s now) ∧
    (∀ is : List Input,
      run E (s.withTimeoutRRT t) is = ((run E s is).1.withTimeoutRRT t, (run E s is).2)) ∧
    (∀ now : Dbl, (plan E (s.withTimeoutRRT t) now).2.filterMap Call.planPathTimeout =
      if s.startGoal.length = 2 then [Dbl.fin 1] else []) ∧
    (∀ is : List Input,
      ((run E (s.withTimeoutRRT t) is).2.filterMap Call.planPathTimeout).all
        (fun d => decide (d = Dbl.fin 1)) = true) := by
  refine ⟨fun conf stamp0 => init_withTimeoutRRT E conf stamp0 t,
    fun msg => mapCallBack_withTimeoutRRT E s t msg,
    fun now => plan_withTimeoutRRT E s t now,
    fun msg now => targetCallBack_withTimeoutRRT E s t msg now,
    fun now => process_withTimeoutRRT E s t now,
    fun is => run_withTimeoutRRT E t is s,
    fun now => ?_, fun is => ?_⟩
  · rw [plan_timeouts]; rfl
  · rw [List.all_eq_true]
    intro d hd
    simpa using run_timeouts E is _ d hd

/-- Instance for C10: two states that differ in `timeoutRRT` only (1/50 against
30) and a second goal request that triggers a plan; the calls made are the
same and the path search is given the budget 1. -/
theorem timeoutRRT_no_influence_witness :
    targetCallBack (toyExt (Dbl.fin 3))
        ((toyState (Dbl.fin 2) [] [pt 0 0 5]).withTimeoutRRT (Dbl.fin 30))
        (pose 40 0 (1 / 4)) (Dbl.fin 200)
      = ((targetCallBack (toyExt (Dbl.fin 3)) (toyState (Dbl.fin 2) [] [pt 0 0 5])
          (pose 40 0 (1 / 4)) (Dbl.fin 200)).1.withTimeoutRRT (Dbl.fin 30),
         (targetCallBack (toyExt (Dbl.fin 3)) (toyState (Dbl.fin 2) [] [pt 0 0 5])
          (pose 40 0 (1 / 4)) (Dbl.fin 200)).2) ∧
    (plan (toyExt (Dbl.fin 3))
        ((toyState (Dbl.fin 2) [] [pt 0 0 5, pt 40 0 5]).withTimeoutRRT (Dbl.fin 30))
        (Dbl.fin 200)).2.filterMap Call.planPathTimeout = [Dbl.fin 1] :=
  ⟨(timeoutRRT_no_influence (toyExt (Dbl.fin 3)) (toyState (Dbl.fin 2) [] [pt 0 0 5])
      (Dbl.fin 30)).2.2.2.1 (pose 40 0 (1 / 4)) (Dbl.fin 200),
   (timeoutRRT_no_influence (toyExt (Dbl.fin 3))
      (toyState (Dbl.fin 2) [] [pt 0 0 5, pt 40 0 5]) (Dbl.fin 30)).2.2.2.2.2.2.1 (Dbl.fin 200)⟩

end GCopter
